import Mathlib

/-!
Shallow embedding of the Spectron3000 core: the unit/physics conversion
library (`spectron3000/utils.py`), the catalog and spectrum parsers and the
LTE synthetic-spectrum synthesizer (`spectron3000/classes.py`), and the
plot-assembly callback (`spectron3000/app.py`).  Python floats are modelled
as real numbers; text is modelled as `List Char`; numpy element-wise
operations become `List.map`/`List.zip`; the mutation performed by
`Catalog.generate_spectrum` is modelled by explicit state passing.
-/

/-- Speed of light in m/s, the exact CODATA value used by `scipy.constants.c`. -/
def cLight : ℝ := 299792458

/-- Boltzmann's constant in inverse centimeters per Kelvin:
`scipy.constants.value("Boltzmann constant in inverse meters per kelvin") / 100`
(the CODATA value 69.50348004 m⁻¹/K divided by 100), as in `utils.py`. -/
def kbcm : ℝ := 0.6950348004

/-- `utils.MHz2cm`: convert MHz to wavenumbers, `(frequency / 1000) / (c / 1e7)`. -/
noncomputable def MHz2cm (frequency : ℝ) : ℝ := (frequency / 1000) / (cLight / 1e7)

/-- `utils.cm2MHz`: convert wavenumbers to MHz, `(wavenumber * (c / 1e7)) * 1000`. -/
noncomputable def cm2MHz (wavenumber : ℝ) : ℝ := (wavenumber * (cLight / 1e7)) * 1000

/-- `utils.dop2freq`: Doppler shift in km/s and a center frequency in MHz to a
frequency width in MHz, `(velocity * 1000 * frequency) / c`. -/
noncomputable def dop2freq (velocity frequency : ℝ) : ℝ := (velocity * 1000 * frequency) / cLight

/-- `utils.freq2vel`: center frequency and frequency offset in MHz to a Doppler
shift in km/s, `((c * offset) / frequency) / 1000`. -/
noncomputable def freq2vel (frequency offset : ℝ) : ℝ := ((cLight * offset) / frequency) / 1000

/-- `utils.boltzmann_factor`: `exp (-E / (kbcm * T))` for a state energy in
wavenumbers and a temperature in Kelvin. -/
noncomputable def boltzmann_factor (E T : ℝ) : ℝ := Real.exp (-E / (kbcm * T))

/-- `utils.partition_function`: sum of the Boltzmann factors of the upper state
energies (given in Kelvin, converted to wavenumbers by multiplying by `kbcm`). -/
noncomputable def partition_function (state_energies : List ℝ) (temperature : ℝ) : ℝ :=
  (state_energies.map (fun E => boltzmann_factor (E * kbcm) temperature)).sum

/-- `utils.I2S`: intrinsic line strength from a catalog intensity, partition
function, transition frequency in MHz, upper state energy in K and temperature. -/
noncomputable def I2S (I Q frequency E_upper T : ℝ) : ℝ :=
  let Eu := E_upper * kbcm
  let E_lower := MHz2cm (cm2MHz Eu - frequency)
  (I * Q) / (4.16231e-5 * frequency * (boltzmann_factor E_lower T - boltzmann_factor Eu T))

/-- `utils.N2flux`: expected flux in Jy,
`((N * S * (v/1e3)^3) / 1e20) / (2.04 * Q * exp (E / T))`. -/
noncomputable def N2flux (N S v Q E T : ℝ) : ℝ :=
  ((N * S * (v / 1e3) ^ (3 : ℕ)) / 1e20) / (2.04 * Q * Real.exp (E / T))

theorem cLight_pos : (0 : ℝ) < cLight := by norm_num [cLight]

theorem kbcm_pos : (0 : ℝ) < kbcm := by norm_num [kbcm]

/-- C4: for every positive frequency `f` and every velocity `v`, the unit
conversions round-trip: `cm2MHz (MHz2cm f)` equals `f` and
`freq2vel f (dop2freq v f)` equals `v`, each within `1e-9` relative tolerance
(in fact exactly, since the conversions are exact inverses over ℝ). -/
theorem spectron_c4 (f v : ℝ) (hf : 0 < f) :
    |cm2MHz (MHz2cm f) - f| ≤ 1e-9 * f ∧
      |freq2vel f (dop2freq v f) - v| ≤ 1e-9 * |v| := by
  have hc : cLight ≠ 0 := ne_of_gt cLight_pos
  have h1 : cm2MHz (MHz2cm f) = f := by
    unfold cm2MHz MHz2cm
    field_simp
    ring
  have h2 : freq2vel f (dop2freq v f) = v := by
    unfold freq2vel dop2freq
    field_simp
  rw [h1, h2, sub_self, sub_self, abs_zero]
  constructor <;> positivity

/-- Witness for C4 at `f = 100`, `v = 3`. -/
theorem spectron_c4_witness :
    |cm2MHz (MHz2cm 100) - 100| ≤ 1e-9 * 100 ∧
      |freq2vel 100 (dop2freq 3 100) - 3| ≤ 1e-9 * |(3 : ℝ)| :=
  spectron_c4 100 3 (by norm_num)

/-- Split a character list at every occurrence of `sep` (the pieces do not
contain `sep`; an empty input yields one empty piece). -/
def splitOnChar (sep : Char) : List Char → List (List Char)
  | [] => [[]]
  | c :: rest =>
    let r := splitOnChar sep rest
    if c = sep then [] :: r
    else
      match r with
      | [] => [[c]]
      | h :: t => (c :: h) :: t

/-- Strip whitespace from both ends of a character list (the field cleanup
`pandas.read_fwf` performs on each sliced column). -/
def trim (cs : List Char) : List Char :=
  ((cs.dropWhile Char.isWhitespace).reverse.dropWhile Char.isWhitespace).reverse

/-- Numeric value of a (possibly empty) list of decimal digits. -/
def natVal (cs : List Char) : Nat :=
  cs.foldl (fun n c => 10 * n + (c.toNat - '0'.toNat)) 0

/-- An exact decimal numeral: the value `num / 10 ^ exp`.  Python parses the
catalog's decimal fields to floats; the numerals themselves are exact
decimals, which this representation captures without rounding. -/
structure Dec where
  num : Int
  exp : Nat
deriving DecidableEq

/-- The rational value of a decimal numeral. -/
def Dec.toRat (d : Dec) : ℚ := (d.num : ℚ) / 10 ^ d.exp

/-- The real value of a decimal numeral. -/
noncomputable def Dec.toReal (d : Dec) : ℝ := (d.num : ℝ) / 10 ^ d.exp

/-- Modelled from the spec: decimal-numeral decoding, performed in the source
by `pandas` dtype inference / `astype(float)` (not part of this repository).
Accepts decimal digits with an optional decimal point, per the numeric
columns of §4.2. -/
def parseUnsigned (cs : List Char) : Option Dec :=
  match splitOnChar '.' cs with
  | [w] => if w ≠ [] ∧ w.all Char.isDigit then some ⟨natVal w, 0⟩ else none
  | [w, f] =>
    if (w ++ f) ≠ [] ∧ (w ++ f).all Char.isDigit then
      some ⟨natVal (w ++ f), f.length⟩
    else none
  | _ => none

/-- Parse a trimmed fixed-width field as a decimal numeral (optional sign). -/
def parseNum (cs : List Char) : Option Dec :=
  match trim cs with
  | '-' :: rest => (parseUnsigned rest).map (fun d => ⟨-d.num, d.exp⟩)
  | '+' :: rest => parseUnsigned rest
  | cs' => parseUnsigned cs'

instance {ε α : Type} [DecidableEq ε] [DecidableEq α] : DecidableEq (Except ε α) :=
  fun a b =>
    match a, b with
    | .ok x, .ok y => decidable_of_iff (x = y) (by simp)
    | .error e, .error f => decidable_of_iff (e = f) (by simp)
    | .ok _, .error _ => isFalse (fun h => Except.noConfusion h)
    | .error _, .ok _ => isFalse (fun h => Except.noConfusion h)

/-- Whether an `Except` value is a success. -/
def exceptOk {ε α : Type} : Except ε α → Bool
  | .ok _ => true
  | .error _ => false

/-- Error taxonomy of §7: parse failures for catalogs and spectra.
`MalformedCatalog` carries the 1-based offending line number. -/
inductive ParseError where
  | MalformedCatalog : Nat → ParseError
  | EmptyCatalog : ParseError
  | MalformedSpectrum : ParseError
deriving DecidableEq

/-- The numeric columns of one catalog line that the core actually consumes:
Frequency (MHz), Intensity (log10 scale) and Lower state energy (cm⁻¹).
The remaining eleven fixed-width fields are ignored by the core (§4.2). -/
structure CatLine where
  frequency : Dec
  intensity : Dec
  elower : Dec
deriving DecidableEq

/-- Nonblank lines of an uploaded text (`pandas` skips blank lines). -/
def catLines (text : List Char) : List (List Char) :=
  (splitOnChar '\n' text).filter (fun l => l ≠ [])

/-- Parse one catalog line. Modelled from the spec: the fixed-width slicing is
done in the source by `pandas.read_fwf` (not part of this repository); §4.2
requires each line to be long enough to slice into 14 fields per the declared
widths `[13, 8, 8, 2, 10, 3, 7, 4, 2, 2, 2, 8, 2, 2]` (which sum to 73
characters; the spec's prose also says "shorter than 75", which contradicts
its own declared widths), a shorter or otherwise unparseable line failing with
`MalformedCatalog` carrying the line number `ln`.  The Frequency, Intensity
and Lower-state-energy columns start at offsets 0, 21 and 31 with widths 13, 8
and 10. -/
def parseLine (ln : Nat) (cs : List Char) : Except ParseError CatLine :=
  if cs.length < 73 then .error (.MalformedCatalog ln)
  else
    match parseNum (cs.take 13), parseNum ((cs.drop 21).take 8),
        parseNum ((cs.drop 31).take 10) with
    | some f, some i, some e => .ok ⟨f, i, e⟩
    | _, _, _ => .error (.MalformedCatalog ln)

/-- Parse the lines of a catalog in order, numbering them from `ln`;
the first failing line aborts the parse with its error. -/
def parseAll (ln : Nat) : List (List Char) → Except ParseError (List CatLine)
  | [] => .ok []
  | l :: rest =>
    match parseLine ln l with
    | .error e => .error e
    | .ok cl =>
      match parseAll (ln + 1) rest with
      | .error e => .error e
      | .ok cls => .ok (cl :: cls)

/-- Parse a whole catalog upload: empty (or blank-only) input fails with
`EmptyCatalog` (§4.2), otherwise the nonblank lines are parsed in order
starting at line number 1. -/
def parseCatalog (text : List Char) : Except ParseError (List CatLine) :=
  let ls := catLines text
  if ls = [] then .error .EmptyCatalog else parseAll 1 ls

/-- The final path component of a filename (`os.path.basename`). -/
def baseName (fn : List Char) : List Char :=
  (splitOnChar '/' fn).getLastD []

/-- Molecule identifier: `os.path.basename(filename).split(".")[0]`, the
basename truncated at its first dot, as in `Catalog.from_upload`. -/
def moleculeName (fn : List Char) : List Char :=
  (baseName fn).takeWhile (fun c => c ≠ '.')

/-- The `Catalog` dataclass of `classes.py`: parsed line data plus the
editable simulation parameters with their declared defaults. -/
structure Catalog where
  frequency : List ℝ
  intensity : List ℝ
  state_energies : List ℝ
  molecule : List Char
  temperature : ℝ := 300.0
  column_density : ℝ := 1e15
  doppler : ℝ := 5.0
  Q : ℝ := 1.0

/-- Build a `Catalog` from parsed lines as `Catalog.from_upload` does:
`frequency` is the Frequency column, `intensity` is `10 ** Intensity`,
`state_energies` is `(MHz2cm Frequency + LowerStateEnergy) / kbcm`, the
molecule is the filename's basename up to its first dot, and the dataclass
defaults `temperature = 300.0`, `column_density = 1e15`, `doppler = 5.0`,
`Q = 1.0` are left in place. -/
noncomputable def buildCatalog (fn : List Char) (ls : List CatLine) : Catalog :=
  { frequency := ls.map (fun l => l.frequency.toReal)
    intensity := ls.map (fun l => (10 : ℝ) ^ l.intensity.toReal)
    state_energies := ls.map (fun l => (MHz2cm l.frequency.toReal + l.elower.toReal) / kbcm)
    molecule := moleculeName fn }

/-- `Catalog.from_upload` of `classes.py` on the decoded upload text (the
base64 transport decoding is outside the core per §4.2): parse the fixed-width
lines and build the `Catalog`. -/
noncomputable def Catalog.from_upload (text fn : List Char) : Except ParseError Catalog :=
  match parseCatalog text with
  | .error e => .error e
  | .ok ls => .ok (buildCatalog fn ls)

/-- Modelled from the spec: evaluation of one Gaussian line profile.  In the
source this is `lmfit.models.GaussianModel().eval`, not part of this
repository; §4.4 gives the evaluation `amplitude * exp(-(x-center)^2 /
(2*sigma^2))`. -/
noncomputable def gaussianEval (amplitude center sigma x : ℝ) : ℝ :=
  amplitude * Real.exp (-(x - center) ^ 2 / (2 * sigma ^ 2))

/-- `Catalog.generate_spectrum` of `classes.py`.  The Python method mutates
`self.Q` and re-coerces `self.column_density` to `float` before computing the
summed Gaussian profile; the mutation is modelled by returning the updated
catalog alongside the simulated y values.  The element-wise numpy arithmetic
on the transition arrays becomes `List.zip`/`List.map`, and the loop that adds
one Gaussian per transition to `spec_y` becomes a fold starting from
`np.zeros(len(spec_x))`. -/
noncomputable def Catalog.generate_spectrum (cat : Catalog) (spec_x : List ℝ) :
    Catalog × List ℝ :=
  let Q := partition_function cat.state_energies cat.temperature
  let Ivals := (cat.intensity.zip (cat.frequency.zip cat.state_energies)).map
    (fun p => I2S p.1 Q p.2.1 p.2.2 cat.temperature)
  let flux := (Ivals.zip (cat.frequency.zip cat.state_energies)).map
    (fun p => N2flux cat.column_density p.1 p.2.1 Q p.2.2 cat.temperature)
  let dopp_freq := cat.frequency.map (fun f => dop2freq cat.doppler f)
  let amplitudes := (flux.zip dopp_freq).map
    (fun p => p.1 / Real.sqrt (2 * Real.pi ^ 2 * p.2))
  let spec_y := (cat.frequency.zip (dopp_freq.zip amplitudes)).foldl
    (fun acc t => acc.zipWith (fun y x => y + gaussianEval t.2.2 t.1 t.2.1 x) spec_x)
    (List.replicate spec_x.length 0)
  ({ cat with Q := Q, column_density := cat.column_density }, spec_y)

/-- The `Spectrum` dataclass of `classes.py`: an observed dataset. -/
structure Spectrum where
  x : List ℝ
  y : List ℝ
  comment : List Char

/-- Parse the data rows of a spectrum upload: each row splits on tabs into at
least two numeric columns, further columns being ignored.  Modelled from the
spec: the source delegates to `pandas.read_csv(sep="\t")`, not part of this
repository; §4.3 makes a row with fewer than two columns fail with
`MalformedSpectrum`. -/
def parseRows : List (List Char) → Except ParseError (List (Dec × Dec))
  | [] => .ok []
  | r :: rest =>
    match splitOnChar '\t' r with
    | a :: b :: _ =>
      match parseNum a, parseNum b with
      | some x, some y =>
        match parseRows rest with
        | .error e => .error e
        | .ok pts => .ok ((x, y) :: pts)
      | _, _ => .error .MalformedSpectrum
    | _ => .error .MalformedSpectrum

/-- `Spectrum.from_upload` of `classes.py` on the decoded upload text: the
first nonblank line is a header, the remaining rows give the x and y columns;
the comment is the uploaded file's basename.  Modelled from the spec where the
source delegates to `pandas.read_csv`: fewer than one data row fails with
`MalformedSpectrum` (§4.3). -/
noncomputable def Spectrum.from_upload (text fn : List Char) :
    Except ParseError Spectrum :=
  match catLines text with
  | [] => .error .MalformedSpectrum
  | _header :: rows =>
    if rows = [] then .error .MalformedSpectrum
    else
      match parseRows rows with
      | .error e => .error e
      | .ok pts =>
        .ok ⟨pts.map (fun p => p.1.toReal), pts.map (fun p => p.2.toReal), baseName fn⟩

/-- One plottable trace: `plotting.plot_spectrum` builds a Scattergl trace
from x values, y values and a legend label. -/
structure Series where
  x : List ℝ
  y : List ℝ
  label : List Char

/-- `plotting.plot_spectrum` (`plotting.py`), stripped of the plotly styling:
the (x, y, label) payload of the trace. -/
def plot_spectrum (x y : List ℝ) (label : List Char) : Series :=
  ⟨x, y, label⟩

/-- The `update_figure` callback of `app.py` restricted to its data payload:
the observation's trace is appended first, then, for every stored catalog
entry, the synthesized spectrum evaluated on the observation's x axis is
appended with the molecule as its label. -/
noncomputable def update_figure (spec : Spectrum)
    (catalogs : List (List Char × Catalog)) : List Series :=
  plot_spectrum spec.x spec.y spec.comment ::
    catalogs.map (fun p =>
      plot_spectrum spec.x ((p.2.generate_spectrum spec.x).2) p.2.molecule)

/-- Result of dispatching an upload to one of the two parsers. -/
inductive UploadResult where
  | spectrum : Except ParseError Spectrum → UploadResult
  | catalog : Except ParseError Catalog → UploadResult

/-- Bool-valued containment of `sub` as a contiguous run at the start of `s`. -/
def startsWith : List Char → List Char → Bool
  | [], _ => true
  | _ :: _, [] => false
  | a :: as, b :: bs => a = b && startsWith as bs

/-- Bool-valued substring containment, the Python `ext in filename` test. -/
def containsSub (sub : List Char) : List Char → Bool
  | [] => sub.isEmpty
  | c :: rest => startsWith sub (c :: rest) || containsSub sub rest

/-- Spectrum file extensions recognised by `classes.process_upload`. -/
def specExt : List (List Char) := [".txt".data, ".spec".data, ".csv".data]

/-- Catalog file extensions recognised by `classes.process_upload`. -/
def catExt : List (List Char) := [".lin".data, ".cat".data]

/-- `classes.process_upload`: dispatch an upload to the spectrum or catalog
parser by testing the filename against the two extension lists.  When the
filename matches neither list the Python function reads the local variable
`parser` before any assignment and crashes with `UnboundLocalError`; that
crash is modelled by `none`. -/
noncomputable def process_upload (filestream filename : List Char) :
    Option UploadResult :=
  if specExt.any (fun e => containsSub e filename) then
    some (.spectrum (Spectrum.from_upload filestream filename))
  else if catExt.any (fun e => containsSub e filename) then
    some (.catalog (Catalog.from_upload filestream filename))
  else none

/-- Validation errors of §7 for parameter edits. -/
inductive ValidationError where
  | InvalidValue : ValidationError
  | UnknownMolecule : ValidationError
deriving DecidableEq

/-- The Session Data Model of §3/§4.5: one optional observed spectrum and a
molecule-keyed catalog mapping (an association list). -/
structure Session where
  spectrum : Option Spectrum
  catalogs : List (List Char × Catalog)

/-- Look up a catalog by molecule key in the session's mapping. -/
def lookupCat : List (List Char × Catalog) → List Char → Option Catalog
  | [], _ => none
  | (k, c) :: rest, m => if k = m then some c else lookupCat rest m

/-- Replace the catalog stored under key `m` (first occurrence). -/
def updateCat : List (List Char × Catalog) → List Char → Catalog →
    List (List Char × Catalog)
  | [], _, _ => []
  | (k, c) :: rest, m, c' =>
    if k = m then (k, c') :: rest else (k, c) :: updateCat rest m c'

/-- Set one of the three editable parameters of a catalog by field name. -/
noncomputable def setField (c : Catalog) (field : List Char) (v : ℝ) : Catalog :=
  if field = ("temperature".data) then { c with temperature := v }
  else if field = ("column_density".data) then { c with column_density := v }
  else if field = ("doppler".data) then { c with doppler := v }
  else c

/-- Modelled from the spec: `apply_table_edit` / `edit_parameter` (§4.5, §6).
The source has no callback consuming edits of its editable DataTable, so the
operation is absent from the repository; per the spec it updates one of
`temperature`, `column_density`, `doppler` on an existing catalog entry,
fails with `UnknownMolecule` if the molecule key is absent and with
`InvalidValue` if the new value is non-positive. -/
noncomputable def apply_table_edit (s : Session) (m field : List Char) (v : ℝ) :
    Except ValidationError Session :=
  match lookupCat s.catalogs m with
  | none => .error .UnknownMolecule
  | some c =>
    if v ≤ 0 then .error .InvalidValue
    else .ok { s with catalogs := updateCat s.catalogs m (setField c field v) }

/-- The session state visible after an edit: the updated session on success,
the untouched previous session when the edit failed. -/
noncomputable def session_after (s : Session) (m field : List Char) (v : ℝ) : Session :=
  match apply_table_edit s m field v with
  | .ok s' => s'
  | .error _ => s

/-- Witness input material: right-pad a field's content to its declared width. -/
def fld (w : Nat) (s : List Char) : List Char :=
  s ++ List.replicate (w - s.length) ' '

/-- A well-formed 73-character catalog line: Frequency 100.0, Intensity -5.0,
Lower state energy 50.0, with the eleven remaining fields filled in. -/
def goodLine : List Char :=
  fld 13 ("100.0".data) ++ fld 8 ("0.01".data) ++ fld 8 ("-5.0".data) ++
    fld 2 ("3".data) ++ fld 10 ("50.0".data) ++ fld 3 ("5".data) ++
    fld 7 ("123".data) ++ fld 4 ("303".data) ++ fld 2 ("1".data) ++
    fld 2 ("2".data) ++ fld 2 ("3".data) ++ fld 8 ("4".data) ++
    fld 2 ("5".data) ++ fld 2 ("6".data)

/-- A second well-formed line, at Frequency 200.0. -/
def goodLine2 : List Char :=
  fld 13 ("200.0".data) ++ fld 8 ("0.01".data) ++ fld 8 ("-5.0".data) ++
    fld 2 ("3".data) ++ fld 10 ("50.0".data) ++ fld 3 ("5".data) ++
    fld 7 ("123".data) ++ fld 4 ("303".data) ++ fld 2 ("1".data) ++
    fld 2 ("2".data) ++ fld 2 ("3".data) ++ fld 8 ("4".data) ++
    fld 2 ("5".data) ++ fld 2 ("6".data)

/-- A two-line catalog upload. -/
def twoLineText : List Char := goodLine ++ '\n' :: goodLine2

/-- The parse of `goodLine`. -/
def goodCatLine : CatLine := ⟨⟨1000, 1⟩, ⟨-50, 1⟩, ⟨500, 1⟩⟩

/-- The parse of `goodLine2`. -/
def goodCatLine2 : CatLine := ⟨⟨2000, 1⟩, ⟨-50, 1⟩, ⟨500, 1⟩⟩

theorem parseAll_length (ls : List (List Char)) :
    ∀ (ln : Nat) (out : List CatLine), parseAll ln ls = .ok out → out.length = ls.length := by
  induction ls with
  | nil =>
    intro ln out h
    simp only [parseAll, Except.ok.injEq] at h
    simp [← h]
  | cons l rest ih =>
    intro ln out h
    simp only [parseAll] at h
    cases hp : parseLine ln l with
    | error e => rw [hp] at h; exact absurd h (by simp)
    | ok cl =>
      rw [hp] at h
      cases hr : parseAll (ln + 1) rest with
      | error e => rw [hr] at h; exact absurd h (by simp)
      | ok cls =>
        rw [hr] at h
        simp only [Except.ok.injEq] at h
        simp [← h, ih _ _ hr]

/-- C1: a well-formed fixed-width catalog upload of N (nonblank) lines parses
to a `Catalog` whose frequency, intensity and state_energies lists all have
length N, with the editable defaults `temperature = 300.0`,
`column_density = 1e15`, `doppler = 5.0`. -/
theorem spectron_c1 (text fn : List Char) (ls : List CatLine)
    (hp : parseCatalog text = .ok ls) :
    (Catalog.from_upload text fn).map
        (fun c => (c.frequency.length, c.intensity.length, c.state_energies.length)) =
      .ok (ls.length, ls.length, ls.length) ∧
    (Catalog.from_upload text fn).map
        (fun c => (c.temperature, c.column_density, c.doppler)) =
      .ok (300.0, 1e15, 5.0) ∧
    ls.length = (catLines text).length := by
  have hlen : ls.length = (catLines text).length := by
    unfold parseCatalog at hp
    by_cases hc : catLines text = []
    · rw [if_pos hc] at hp; exact absurd hp (by simp)
    · rw [if_neg hc] at hp; exact parseAll_length _ _ _ hp
  refine ⟨?_, ?_, hlen⟩ <;>
    simp [Catalog.from_upload, hp, buildCatalog, Except.map]

/-- Witness for C1 on a concrete two-line upload. -/
theorem spectron_c1_witness :
    parseCatalog twoLineText = .ok [goodCatLine, goodCatLine2] ∧
    ((Catalog.from_upload twoLineText ("H2O.cat".data)).map
        (fun c => (c.frequency.length, c.intensity.length, c.state_energies.length)) =
      .ok (2, 2, 2) ∧
    (Catalog.from_upload twoLineText ("H2O.cat".data)).map
        (fun c => (c.temperature, c.column_density, c.doppler)) =
      .ok (300.0, 1e15, 5.0) ∧
    ([goodCatLine, goodCatLine2] : List CatLine).length = (catLines twoLineText).length) :=
  ⟨by decide, spectron_c1 twoLineText ("H2O.cat".data) [goodCatLine, goodCatLine2] (by decide)⟩

/-- C2: a catalog with zero transitions (`frequency = []`) synthesizes an
all-zero sequence of the same length as the input axis, with no error. -/
theorem spectron_c2 (cat : Catalog) (xs : List ℝ) (h : cat.frequency = []) :
    (cat.generate_spectrum xs).2 = List.replicate xs.length 0 := by
  simp [Catalog.generate_spectrum, h]

/-- Witness for C2: an empty catalog against a three-point axis. -/
theorem spectron_c2_witness :
    (Catalog.mk [] [] [] ("X".data) 300.0 1e15 5.0 1.0).frequency = [] ∧
    ((Catalog.mk [] [] [] ("X".data) 300.0 1e15 5.0 1.0).generate_spectrum
        [1, 2, 3]).2 = List.replicate 3 (0 : ℝ) :=
  ⟨rfl, spectron_c2 _ _ rfl⟩

/-- C3: for every parsed catalog line, the stored linear intensity is
`10 ^ Intensity` and the stored state energy in Kelvin is
`(MHz2cm Frequency + LowerStateEnergy) / kbcm`. -/
theorem spectron_c3 (text fn : List Char) (ls : List CatLine) (i : Nat) (l : CatLine)
    (hp : parseCatalog text = .ok ls) (hl : ls[i]? = some l) :
    (Catalog.from_upload text fn).map (fun c => c.intensity[i]?) =
      .ok (some ((10 : ℝ) ^ l.intensity.toReal)) ∧
    (Catalog.from_upload text fn).map (fun c => c.state_energies[i]?) =
      .ok (some ((MHz2cm l.frequency.toReal + l.elower.toReal) / kbcm)) := by
  constructor <;>
    simp [Catalog.from_upload, hp, buildCatalog, List.getElem?_map, hl, Except.map]

/-- Witness for C3 on a concrete one-line upload. -/
theorem spectron_c3_witness :
    parseCatalog goodLine = .ok [goodCatLine] ∧
    ((Catalog.from_upload goodLine ("H2O.cat".data)).map (fun c => c.intensity[0]?) =
      .ok (some ((10 : ℝ) ^ goodCatLine.intensity.toReal)) ∧
    (Catalog.from_upload goodLine ("H2O.cat".data)).map (fun c => c.state_energies[0]?) =
      .ok (some ((MHz2cm goodCatLine.frequency.toReal + goodCatLine.elower.toReal) / kbcm))) :=
  ⟨by decide, spectron_c3 goodLine ("H2O.cat".data) [goodCatLine] 0 goodCatLine (by decide) rfl⟩

/-- C9: the rendered series start with the raw observation, followed by one
synthesized series per stored catalog entry (in order, labelled by molecule,
evaluated on the observation's x axis). -/
theorem spectron_c9 (spec : Spectrum) (catalogs : List (List Char × Catalog)) :
    (update_figure spec catalogs).head? = some (plot_spectrum spec.x spec.y spec.comment) ∧
    (update_figure spec catalogs).length = 1 + catalogs.length ∧
    ∀ i : Nat, (update_figure spec catalogs)[i + 1]? =
      (catalogs[i]?).map (fun p =>
        plot_spectrum spec.x ((p.2.generate_spectrum spec.x).2) p.2.molecule) := by
  refine ⟨rfl, by simp [update_figure, Nat.add_comm], fun i => ?_⟩
  simp [update_figure]

/-- C10: `generate_spectrum` changes only the cached `Q` (to the partition
function of the stored state energies at the stored temperature); the float
coercion of `column_density` is the identity on ℝ, and every other field of
the catalog is returned unchanged. -/
theorem spectron_c10 (cat : Catalog) (xs : List ℝ) :
    (cat.generate_spectrum xs).1.frequency = cat.frequency ∧
    (cat.generate_spectrum xs).1.intensity = cat.intensity ∧
    (cat.generate_spectrum xs).1.state_energies = cat.state_energies ∧
    (cat.generate_spectrum xs).1.molecule = cat.molecule ∧
    (cat.generate_spectrum xs).1.temperature = cat.temperature ∧
    (cat.generate_spectrum xs).1.doppler = cat.doppler ∧
    (cat.generate_spectrum xs).1.column_density = cat.column_density ∧
    (cat.generate_spectrum xs).1.Q =
      partition_function cat.state_energies cat.temperature :=
  ⟨rfl, rfl, rfl, rfl, rfl, rfl, rfl, rfl⟩

/-- A line much shorter than the declared widths allow. -/
def shortLine : List Char := "short".data

/-- An upload whose second line is too short. -/
def shortText : List Char := goodLine ++ '\n' :: shortLine

theorem parseAll_error (ls : List (List Char)) :
    ∀ (k i : Nat) (l : List Char) (e : ParseError),
      ls[i]? = some l →
      (∀ j, j < i → ((ls[j]?).all (fun l2 => exceptOk (parseLine (k + j) l2))) = true) →
      parseLine (k + i) l = .error e →
      parseAll k ls = .error e := by
  induction ls with
  | nil => intro k i l e hl _ _; simp at hl
  | cons hd tl ih =>
    intro k i l e hl hok hline
    cases i with
    | zero =>
      simp only [List.getElem?_cons_zero, Option.some.injEq] at hl
      subst hl
      simp only [parseAll]
      rw [show parseLine k hd = Except.error e from hline]
    | succ n =>
      have h0 := hok 0 (Nat.succ_pos n)
      simp only [List.getElem?_cons_zero, Option.all_some] at h0
      cases hph : parseLine (k + 0) hd with
      | error e' => rw [hph] at h0; simp [exceptOk] at h0
      | ok cl =>
        simp only [parseAll]
        rw [show parseLine k hd = .ok cl from hph]
        have htl : parseAll (k + 1) tl = .error e := by
          apply ih (k + 1) n l e
          · simpa using hl
          · intro j hj
            have hh := hok (j + 1) (Nat.succ_lt_succ hj)
            rw [List.getElem?_cons_succ] at hh
            have harith : k + (j + 1) = k + 1 + j := by omega
            rw [harith] at hh
            exact hh
          · have harith : k + 1 + n = k + (n + 1) := by omega
            rw [harith]
            exact hline
        rw [htl]

/-- Counterexample to C6 as stated: the declared widths
`[13, 8, 8, 2, 10, 3, 7, 4, 2, 2, 2, 8, 2, 2]` sum to 73, so a well-formed
73-character line — shorter than the 75 characters the claim requires to be
rejected — slices into all 14 fields and parses successfully into a
`Catalog`. -/
theorem spectron_c6_counterexample :
    goodLine.length < 75 ∧
      exceptOk (Catalog.from_upload goodLine ("H2O.cat".data)) = true := by
  refine ⟨by decide, ?_⟩
  have hp : parseCatalog goodLine = .ok [goodCatLine] := by decide
  simp [Catalog.from_upload, hp, exceptOk]

/-- C6 (amended): a line too short to slice into the 14 declared fixed-width
fields — shorter than 73 characters, the sum of the declared widths — makes
the parse fail with `MalformedCatalog` naming that line's 1-based number
(here: the first offending line, all lines before it parsing cleanly), and no
`Catalog` is returned. -/
theorem spectron_c6 (text fn : List Char) (i : Nat) (l : List Char)
    (hl : (catLines text)[i]? = some l)
    (hshort : l.length < 73)
    (hok : ∀ j, j < i →
      (((catLines text)[j]?).all (fun l2 => exceptOk (parseLine (1 + j) l2))) = true) :
    Catalog.from_upload text fn = .error (.MalformedCatalog (i + 1)) := by
  have hne : ¬ (catLines text = []) := by
    intro h
    rw [h] at hl
    simp at hl
  have hline : parseLine (1 + i) l = .error (.MalformedCatalog (1 + i)) := by
    simp [parseLine, hshort]
  have hcat : parseCatalog text = .error (.MalformedCatalog (1 + i)) := by
    unfold parseCatalog
    rw [if_neg hne]
    exact parseAll_error (catLines text) 1 i l _ hl hok hline
  unfold Catalog.from_upload
  rw [hcat, Nat.add_comm 1 i]

/-- Witness for the amended C6: a two-line upload whose second line has only
5 characters fails with `MalformedCatalog 2`. -/
theorem spectron_c6_witness :
    (catLines shortText)[1]? = some shortLine ∧
      shortLine.length < 73 ∧
      Catalog.from_upload shortText ("H2O.cat".data) =
        .error (.MalformedCatalog 2) :=
  ⟨by decide, by decide,
    spectron_c6 shortText ("H2O.cat".data) 1 shortLine (by decide) (by decide)
      (by decide)⟩

theorem partition_function_mono (es : List ℝ) (T₁ T₂ : ℝ)
    (hT₁ : 0 < T₁) (hT : T₁ ≤ T₂) :
    ∀ _ : (∀ E ∈ es, 0 < E),
      partition_function es T₁ ≤ partition_function es T₂ := by
  induction es with
  | nil => intro _; simp [partition_function]
  | cons E rest ih =>
    intro hE
    rw [List.forall_mem_cons] at hE
    simp only [partition_function, List.map_cons, List.sum_cons]
    have hT₂ : 0 < T₂ := lt_of_lt_of_le hT₁ hT
    have hk := kbcm_pos
    have hterm : boltzmann_factor (E * kbcm) T₁ ≤ boltzmann_factor (E * kbcm) T₂ := by
      unfold boltzmann_factor
      apply Real.exp_le_exp.mpr
      rw [neg_div, neg_div, neg_le_neg_iff]
      have hnum : 0 ≤ E * kbcm := le_of_lt (mul_pos hE.1 hk)
      have hden : kbcm * T₁ ≤ kbcm * T₂ := by
        exact mul_le_mul_of_nonneg_left hT hk.le
      gcongr
    exact add_le_add hterm (ih hE.2)

theorem partition_function_tendsto (es : List ℝ) :
    Filter.Tendsto (partition_function es) Filter.atTop (nhds (es.length : ℝ)) := by
  induction es with
  | nil =>
    have : partition_function [] = fun _ : ℝ => (0 : ℝ) := by
      funext T; simp [partition_function]
    rw [this]
    simp
  | cons E rest ih =>
    have hg : Filter.Tendsto (fun T : ℝ => -(E * kbcm) / kbcm / T)
        Filter.atTop (nhds 0) :=
      Filter.Tendsto.div_atTop tendsto_const_nhds Filter.tendsto_id
    have hexp := (Real.continuous_exp.tendsto 0).comp hg
    rw [Real.exp_zero] at hexp
    have h1 : Filter.Tendsto (fun T : ℝ => boltzmann_factor (E * kbcm) T)
        Filter.atTop (nhds 1) := by
      refine hexp.congr (fun T => ?_)
      show Real.exp (-(E * kbcm) / kbcm / T) = boltzmann_factor (E * kbcm) T
      rw [div_div]
      rfl
    have hsum := h1.add ih
    have heq : (fun T : ℝ => boltzmann_factor (E * kbcm) T + partition_function rest T)
        = partition_function (E :: rest) := by
      funext T; simp [partition_function]
    rw [heq] at hsum
    have hlen : (1 : ℝ) + (rest.length : ℝ) = ((E :: rest).length : ℝ) := by
      simp [List.length_cons]
      ring
    rwa [hlen] at hsum

/-- C5: for fixed strictly positive state energies, the partition function is
monotonically non-decreasing in the temperature on positive temperatures, and
tends to the number of state energies as the temperature tends to infinity. -/
theorem spectron_c5 (es : List ℝ) (T₁ T₂ : ℝ) (hE : ∀ E ∈ es, 0 < E)
    (hT₁ : 0 < T₁) (hT : T₁ ≤ T₂) :
    partition_function es T₁ ≤ partition_function es T₂ ∧
      Filter.Tendsto (partition_function es) Filter.atTop (nhds (es.length : ℝ)) :=
  ⟨partition_function_mono es T₁ T₂ hT₁ hT hE, partition_function_tendsto es⟩

/-- Witness for C5 at `es = [1, 2]`, `T₁ = 1`, `T₂ = 2`. -/
theorem spectron_c5_witness :
    partition_function [1, 2] 1 ≤ partition_function [1, 2] 2 ∧
      Filter.Tendsto (partition_function [1, 2]) Filter.atTop
        (nhds (([1, 2] : List ℝ).length : ℝ)) :=
  spectron_c5 [1, 2] 1 2
    (by intro E hE; simp at hE; rcases hE with rfl | rfl <;> norm_num)
    (by norm_num) (by norm_num)

/-- C7 fails on the code: `classes.process_upload` assigns its `parser` local
only inside the two extension tests, so a filename matching neither extension
list reads `parser` unassigned and crashes with `UnboundLocalError` instead of
returning an explicit error value (likewise, `app.upload_catalog` tests the
undefined name `uploaded_file` and raises `NameError` on every call).  In the
embedding the crash is the `none` result: the operation reaches no result and
no explicit error value. -/
theorem spectron_c7 : process_upload ("x".data) ("data.xyz".data) = none := by
  have h1 : specExt.any (fun e => containsSub e ("data.xyz".data)) = false := by decide
  have h2 : catExt.any (fun e => containsSub e ("data.xyz".data)) = false := by decide
  simp [process_upload, h1, h2]

/-- A catalog for the session-edit witness. -/
noncomputable def h2oCatalog : Catalog :=
  ⟨[100], [1], [50], "H2O".data, 300.0, 1e15, 5.0, 1.0⟩

/-- A session holding one catalog keyed by `H2O`. -/
noncomputable def testSession : Session :=
  ⟨none, [(("H2O".data), h2oCatalog)]⟩

/-- C8: a table edit fails with `UnknownMolecule` when the molecule key is
absent from the session's catalog mapping, and with `InvalidValue` when the
key is present but the new value is non-positive; in both failure cases the
session state is unchanged. -/
theorem spectron_c8 (s : Session) (m field : List Char) (v : ℝ)
    (h : (lookupCat s.catalogs m).isNone = true ∨ v ≤ 0) :
    apply_table_edit s m field v =
        .error (if (lookupCat s.catalogs m).isNone then .UnknownMolecule
          else .InvalidValue) ∧
      session_after s m field v = s := by
  unfold session_after apply_table_edit
  cases hc : lookupCat s.catalogs m with
  | none => simp [hc]
  | some c =>
    have hv : v ≤ 0 := by
      rcases h with h' | h'
      · rw [hc] at h'; simp at h'
      · exact h'
    simp [hc, hv]

/-- Witness for C8: editing temperature to `-5` on the present key `H2O`
fails with `InvalidValue` and leaves the session untouched. -/
theorem spectron_c8_witness :
    ((lookupCat testSession.catalogs ("H2O".data)).isNone = true ∨ (-5 : ℝ) ≤ 0) ∧
      (apply_table_edit testSession ("H2O".data) ("temperature".data) (-5) =
          .error (if (lookupCat testSession.catalogs ("H2O".data)).isNone then
            .UnknownMolecule else .InvalidValue) ∧
        session_after testSession ("H2O".data) ("temperature".data) (-5) =
          testSession) :=
  ⟨Or.inr (by norm_num),
    spectron_c8 testSession ("H2O".data) ("temperature".data) (-5)
      (Or.inr (by norm_num))⟩
